import Mathlib

/-!
Shallow embedding of the Move module `supply_chain::supply_chain_tracker`
(supply-chain shipment tracking engine) and verification of the spec's
claims about it.

Modelling conventions:
* Move `address` is `Nat`; `vector<u8>` is `List Nat`; `u8/u32/u64` are
  `Nat` (with explicit overflow aborts where the checked range makes the
  distinction observable, namely the `u8` risk-score arithmetic in
  `report_security_incident`).
* Move `Table<K, V>` is an association list; `table::add` aborts when the
  key is already present (dynamic-field `EFieldAlreadyExists` semantics),
  `table::contains` is a lookup.
* An entry function is a function to `Except Nat σ`: `.error code` models
  a Move abort (the whole transaction is rolled back, so no state change
  is observable), `.ok` returns the post-state.  `tx_context::sender` and
  `clock::timestamp_ms` become explicit `sender`/`timestamp` arguments.
* `sui::hash::keccak256` is the real Keccak-256 digest (validated against
  the standard test vectors); `string::bytes` is UTF-8 encoding and
  `string::utf8` performs strict UTF-8 validation and aborts on invalid
  bytes, as `std::string::utf8` does -- this abort is load-bearing: a
  keccak digest is almost never valid UTF-8, so `report_security_incident`
  aborts while building its alert id.
* Since every claim is about a single shipment after `create_shipment`,
  the system state bundles the tracker, the shipment, and the shipment's
  `ShipmentStatus` entry of `tracker.active_shipments` (the entry exists
  in every reachable state because `create_shipment` adds it and no
  operation removes it).
* Event emission (`event::emit`) has no effect on the modelled state and
  is omitted.
-/

set_option maxRecDepth 100000

set_option maxHeartbeats 4000000

namespace SupplyChainTracker

abbrev Address := Nat

/-- Move error code `ENotAuthorized` (`const ENotAuthorized: u64 = 1`). -/
def ENotAuthorized : Nat := 1

/-- Move error code `EInvalidTransition` (`const EInvalidTransition: u64 = 2`). -/
def EInvalidTransition : Nat := 2

/-- Abort raised by `table::add` when the key is already present
(dynamic-field `EFieldAlreadyExists`); distinct from the module's codes. -/
def EFieldAlreadyExists : Nat := 100

/-- Abort raised by the Move VM on `u8` arithmetic overflow; distinct from
the module's codes. -/
def EArithOverflow : Nat := 101

/-- Move `Table<K, V>` as an association list. -/
abbrev Table (K V : Type) : Type := List (K × V)

/-- `table::contains`. -/
def Table.containsKey {K V : Type} [DecidableEq K] (t : Table K V) (k : K) : Bool :=
  (t.lookup k).isSome

/-- `table::add`: aborts with `EFieldAlreadyExists` if the key is present. -/
def Table.addEntry {K V : Type} [DecidableEq K] (t : Table K V) (k : K) (v : V) :
    Except Nat (Table K V) :=
  if (t.lookup k).isSome then .error EFieldAlreadyExists else .ok ((k, v) :: t)

/-- Abort raised by `std::string::utf8` on bytes that are not valid UTF-8
(its module-local code `EINVALID_UTF8`; Move abort identities are
(module, code) pairs, modelled here by distinct naturals). -/
def EInvalidUtf8 : Nat := 102

/-- UTF-8 encoding of one unicode scalar value. -/
def utf8EncodeChar (c : Nat) : List Nat :=
  if c < 0x80 then [c]
  else if c < 0x800 then [0xC0 + c / 0x40, 0x80 + c % 0x40]
  else if c < 0x10000 then
    [0xE0 + c / 0x1000, 0x80 + c / 0x40 % 0x40, 0x80 + c % 0x40]
  else
    [0xF0 + c / 0x40000, 0x80 + c / 0x1000 % 0x40, 0x80 + c / 0x40 % 0x40,
      0x80 + c % 0x40]

/-- `string::bytes`: the UTF-8 bytes of the string. -/
def string_bytes (s : String) : List Nat :=
  (s.toList.map (fun ch => utf8EncodeChar ch.toNat)).join

/-- Strict UTF-8 decoding (RFC 3629: no overlong forms, no surrogates,
nothing above U+10FFFF), exactly the validity rules `std::string`'s
check enforces; `none` means the bytes are not valid UTF-8. -/
def utf8Decode : List Nat → Option (List Char)
  | [] => some []
  | b0 :: rest =>
    if b0 < 0x80 then
      (utf8Decode rest).map (fun cs => Char.ofNat b0 :: cs)
    else if b0 < 0xC2 then none
    else if b0 < 0xE0 then
      match rest with
      | b1 :: rest2 =>
        if 0x80 ≤ b1 ∧ b1 < 0xC0 then
          (utf8Decode rest2).map (fun cs =>
            Char.ofNat ((b0 - 0xC0) * 0x40 + (b1 - 0x80)) :: cs)
        else none
      | [] => none
    else if b0 < 0xF0 then
      match rest with
      | b1 :: b2 :: rest3 =>
        if (0x80 ≤ b1 ∧ b1 < 0xC0) ∧ (0x80 ≤ b2 ∧ b2 < 0xC0) ∧
            (b0 = 0xE0 → 0xA0 ≤ b1) ∧ (b0 = 0xED → b1 < 0xA0) then
          (utf8Decode rest3).map (fun cs =>
            Char.ofNat ((b0 - 0xE0) * 0x1000 + (b1 - 0x80) * 0x40 +
              (b2 - 0x80)) :: cs)
        else none
      | _ => none
    else if b0 < 0xF5 then
      match rest with
      | b1 :: b2 :: b3 :: rest4 =>
        if (0x80 ≤ b1 ∧ b1 < 0xC0) ∧ (0x80 ≤ b2 ∧ b2 < 0xC0) ∧
            (0x80 ≤ b3 ∧ b3 < 0xC0) ∧
            (b0 = 0xF0 → 0x90 ≤ b1) ∧ (b0 = 0xF4 → b1 < 0x90) then
          (utf8Decode rest4).map (fun cs =>
            Char.ofNat ((b0 - 0xF0) * 0x40000 + (b1 - 0x80) * 0x1000 +
              (b2 - 0x80) * 0x40 + (b3 - 0x80)) :: cs)
        else none
      | _ => none
    else none

/-- `std::string::utf8`: aborts when the bytes are not valid UTF-8. -/
def string_utf8 (b : List Nat) : Except Nat String :=
  match utf8Decode b with
  | some cs => .ok (String.mk cs)
  | none => .error EInvalidUtf8

/-- Rotate a 64-bit lane left by `n < 64` bits. -/
def rotl64 (x n : Nat) : Nat :=
  (x <<< n) % 2 ^ 64 ||| x >>> (64 - n)

/-- The iota-step constant for each of the 24 rounds of Keccak-f[1600]. -/
def keccakRC : List Nat :=
  [0x1, 0x8082, 0x800000000000808a,
   0x8000000080008000, 0x808b, 0x80000001,
   0x8000000080008081, 0x8000000000008009, 0x8a,
   0x88, 0x80008009, 0x8000000a,
   0x8000808b, 0x800000000000008b, 0x8000000000008089,
   0x8000000000008003, 0x8000000000008002, 0x8000000000000080,
   0x800a, 0x800000008000000a, 0x8000000080008081,
   0x8000000000008080, 0x80000001, 0x8000000080008008]

/-- The Keccak state as 25 named 64-bit lanes, lane (x, y) in field
`a(x + 5 y)`; scalar fields let the kernel evaluate digests efficiently. -/
structure KState where
  a0 : Nat
  a1 : Nat
  a2 : Nat
  a3 : Nat
  a4 : Nat
  a5 : Nat
  a6 : Nat
  a7 : Nat
  a8 : Nat
  a9 : Nat
  a10 : Nat
  a11 : Nat
  a12 : Nat
  a13 : Nat
  a14 : Nat
  a15 : Nat
  a16 : Nat
  a17 : Nat
  a18 : Nat
  a19 : Nat
  a20 : Nat
  a21 : Nat
  a22 : Nat
  a23 : Nat
  a24 : Nat

/-- A single permutation round, all five step mappings fused, over the
named lanes. -/
def keccakRound (rc : Nat) (s : KState) : KState :=
  let c0 := s.a0 ^^^ s.a5 ^^^ s.a10 ^^^ s.a15 ^^^ s.a20
  let c1 := s.a1 ^^^ s.a6 ^^^ s.a11 ^^^ s.a16 ^^^ s.a21
  let c2 := s.a2 ^^^ s.a7 ^^^ s.a12 ^^^ s.a17 ^^^ s.a22
  let c3 := s.a3 ^^^ s.a8 ^^^ s.a13 ^^^ s.a18 ^^^ s.a23
  let c4 := s.a4 ^^^ s.a9 ^^^ s.a14 ^^^ s.a19 ^^^ s.a24
  let d0 := c4 ^^^ rotl64 c1 1
  let d1 := c0 ^^^ rotl64 c2 1
  let d2 := c1 ^^^ rotl64 c3 1
  let d3 := c2 ^^^ rotl64 c4 1
  let d4 := c3 ^^^ rotl64 c0 1
  let t0 := s.a0 ^^^ d0
  let t1 := s.a1 ^^^ d1
  let t2 := s.a2 ^^^ d2
  let t3 := s.a3 ^^^ d3
  let t4 := s.a4 ^^^ d4
  let t5 := s.a5 ^^^ d0
  let t6 := s.a6 ^^^ d1
  let t7 := s.a7 ^^^ d2
  let t8 := s.a8 ^^^ d3
  let t9 := s.a9 ^^^ d4
  let t10 := s.a10 ^^^ d0
  let t11 := s.a11 ^^^ d1
  let t12 := s.a12 ^^^ d2
  let t13 := s.a13 ^^^ d3
  let t14 := s.a14 ^^^ d4
  let t15 := s.a15 ^^^ d0
  let t16 := s.a16 ^^^ d1
  let t17 := s.a17 ^^^ d2
  let t18 := s.a18 ^^^ d3
  let t19 := s.a19 ^^^ d4
  let t20 := s.a20 ^^^ d0
  let t21 := s.a21 ^^^ d1
  let t22 := s.a22 ^^^ d2
  let t23 := s.a23 ^^^ d3
  let t24 := s.a24 ^^^ d4
  let b0 := rotl64 t0 0
  let b1 := rotl64 t6 44
  let b2 := rotl64 t12 43
  let b3 := rotl64 t18 21
  let b4 := rotl64 t24 14
  let b5 := rotl64 t3 28
  let b6 := rotl64 t9 20
  let b7 := rotl64 t10 3
  let b8 := rotl64 t16 45
  let b9 := rotl64 t22 61
  let b10 := rotl64 t1 1
  let b11 := rotl64 t7 6
  let b12 := rotl64 t13 25
  let b13 := rotl64 t19 8
  let b14 := rotl64 t20 18
  let b15 := rotl64 t4 27
  let b16 := rotl64 t5 36
  let b17 := rotl64 t11 10
  let b18 := rotl64 t17 15
  let b19 := rotl64 t23 56
  let b20 := rotl64 t2 62
  let b21 := rotl64 t8 55
  let b22 := rotl64 t14 39
  let b23 := rotl64 t15 41
  let b24 := rotl64 t21 2
  ⟨(b0 ^^^ ((b1 ^^^ (2 ^ 64 - 1)) &&& b2)) ^^^ rc,
    b1 ^^^ ((b2 ^^^ (2 ^ 64 - 1)) &&& b3),
    b2 ^^^ ((b3 ^^^ (2 ^ 64 - 1)) &&& b4),
    b3 ^^^ ((b4 ^^^ (2 ^ 64 - 1)) &&& b0),
    b4 ^^^ ((b0 ^^^ (2 ^ 64 - 1)) &&& b1),
    b5 ^^^ ((b6 ^^^ (2 ^ 64 - 1)) &&& b7),
    b6 ^^^ ((b7 ^^^ (2 ^ 64 - 1)) &&& b8),
    b7 ^^^ ((b8 ^^^ (2 ^ 64 - 1)) &&& b9),
    b8 ^^^ ((b9 ^^^ (2 ^ 64 - 1)) &&& b5),
    b9 ^^^ ((b5 ^^^ (2 ^ 64 - 1)) &&& b6),
    b10 ^^^ ((b11 ^^^ (2 ^ 64 - 1)) &&& b12),
    b11 ^^^ ((b12 ^^^ (2 ^ 64 - 1)) &&& b13),
    b12 ^^^ ((b13 ^^^ (2 ^ 64 - 1)) &&& b14),
    b13 ^^^ ((b14 ^^^ (2 ^ 64 - 1)) &&& b10),
    b14 ^^^ ((b10 ^^^ (2 ^ 64 - 1)) &&& b11),
    b15 ^^^ ((b16 ^^^ (2 ^ 64 - 1)) &&& b17),
    b16 ^^^ ((b17 ^^^ (2 ^ 64 - 1)) &&& b18),
    b17 ^^^ ((b18 ^^^ (2 ^ 64 - 1)) &&& b19),
    b18 ^^^ ((b19 ^^^ (2 ^ 64 - 1)) &&& b15),
    b19 ^^^ ((b15 ^^^ (2 ^ 64 - 1)) &&& b16),
    b20 ^^^ ((b21 ^^^ (2 ^ 64 - 1)) &&& b22),
    b21 ^^^ ((b22 ^^^ (2 ^ 64 - 1)) &&& b23),
    b22 ^^^ ((b23 ^^^ (2 ^ 64 - 1)) &&& b24),
    b23 ^^^ ((b24 ^^^ (2 ^ 64 - 1)) &&& b20),
    b24 ^^^ ((b20 ^^^ (2 ^ 64 - 1)) &&& b21)⟩

/-- Keccak-f[1600]: fold the round function over the 24 round constants. -/
def keccakF (s : KState) : KState :=
  keccakRC.foldl (fun st rc => keccakRound rc st) s

/-- Multi-rate padding at rate 136 with Keccak's legacy 0x01 domain byte
(keccak-256, not SHA3-256's 0x06). -/
def keccakPad (msg : List Nat) : List Nat :=
  let padLen := 136 - msg.length % 136
  if padLen = 1 then msg ++ [0x81]
  else msg ++ 0x01 :: (List.replicate (padLen - 2) 0 ++ [0x80])

/-- Little-endian 64-bit lane from bytes `8 j .. 8 j + 7` of a block. -/
def keccakLane (block : List Nat) (j : Nat) : Nat :=
  (List.range 8).foldl (fun acc k => acc + (block.getD (8 * j + k) 0 <<< (8 * k))) 0

/-- Absorb one 136-byte block into the first 17 lanes and permute. -/
def keccakAbsorb (s : KState) (block : List Nat) : KState :=
  keccakF ⟨s.a0 ^^^ keccakLane block 0, s.a1 ^^^ keccakLane block 1,
    s.a2 ^^^ keccakLane block 2, s.a3 ^^^ keccakLane block 3,
    s.a4 ^^^ keccakLane block 4, s.a5 ^^^ keccakLane block 5,
    s.a6 ^^^ keccakLane block 6, s.a7 ^^^ keccakLane block 7,
    s.a8 ^^^ keccakLane block 8, s.a9 ^^^ keccakLane block 9,
    s.a10 ^^^ keccakLane block 10, s.a11 ^^^ keccakLane block 11,
    s.a12 ^^^ keccakLane block 12, s.a13 ^^^ keccakLane block 13,
    s.a14 ^^^ keccakLane block 14, s.a15 ^^^ keccakLane block 15,
    s.a16 ^^^ keccakLane block 16,
    s.a17, s.a18, s.a19, s.a20, s.a21, s.a22, s.a23, s.a24⟩

/-- The all-zero initial Keccak state. -/
def keccakInit : KState :=
  ⟨0, 0, 0, 0, 0, 0, 0, 0, 0, 0, 0, 0, 0, 0, 0, 0, 0, 0, 0, 0, 0, 0, 0, 0, 0⟩

/-- Split a byte list into 136-byte blocks (structural recursion on a fuel
counter so that the definition reduces in the kernel; every step consumes at
least one byte, so fuel `l.length` always suffices). -/
def keccakBlocksGo : Nat → List Nat → List (List Nat)
  | _, [] => []
  | 0, _ => []
  | fuel + 1, b :: t => ((b :: t).take 136) :: keccakBlocksGo fuel ((b :: t).drop 136)

/-- Split a byte list into 136-byte blocks. -/
def keccakBlocks (l : List Nat) : List (List Nat) :=
  keccakBlocksGo l.length l

/-- `sui::hash::keccak256`: the Keccak-256 digest (32 bytes) of the input
bytes; the implementation matches the standard test vectors (digest of the
empty message c5d24601..., digest of "abc" 4e03657a...). -/
def keccak256 (data : List Nat) : List Nat :=
  let final := (keccakBlocks (keccakPad data)).foldl keccakAbsorb keccakInit
  (List.range 32).map (fun k =>
    ([final.a0, final.a1, final.a2, final.a3].getD (k / 8) 0 >>> (8 * (k % 8))) % 256)

/-- Geographic location with precision (struct `Location`). -/
structure Location where
  latitude : String
  longitude : String
  address : String
  country_code : String
  region : String
  facility_type : String
  facility_id : Option String
deriving DecidableEq, Inhabited

/-- Participant information and credentials (struct `ParticipantInfo`). -/
structure ParticipantInfo where
  name : String
  public_key : List Nat
  certifications : List String
  authorized_regions : List String
  risk_rating : Nat
  last_audit_timestamp : Nat
  active : Bool
deriving DecidableEq, Inhabited

/-- Environmental specifications and monitoring (struct `EnvironmentalSpec`). -/
structure EnvironmentalSpec where
  min_temperature : Option Int
  max_temperature : Option Int
  min_humidity : Option Nat
  max_humidity : Option Nat
  pressure_requirements : Option String
  vibration_limits : Option String
  light_exposure_max : Option Nat
  time_sensitive : Bool
  max_exposure_hours : Option Nat
deriving DecidableEq, Inhabited

/-- Supply chain stage definition (struct `SupplyStage`). -/
structure SupplyStage where
  stage_name : String
  responsible_party : Address
  location : Location
  required_verifications : List String
  estimated_duration_hours : Nat
  mandatory_documents : List String
  environmental_constraints : EnvironmentalSpec
  completed : Bool
  completion_timestamp : Option Nat
  verification_signatures : List (List Nat)
deriving DecidableEq, Inhabited

/-- Tamper-evident seal (struct `TamperSeal`). -/
structure TamperSeal where
  seal_id : String
  seal_type : String
  applied_by : Address
  applied_timestamp : Nat
  cryptographic_signature : List Nat
  broken : Bool
  broken_timestamp : Option Nat
  break_detection_method : Option String
deriving DecidableEq, Inhabited

/-- Custody transfer signature (struct `CustodySignature`). -/
structure CustodySignature where
  signer : Address
  signature : List Nat
  timestamp : Nat
  action : String
  location : Location
  witness : Option Address
  condition_notes : String
deriving DecidableEq, Inhabited

/-- Environmental condition violation (struct `ConditionViolation`). -/
structure ConditionViolation where
  violation_type : String
  detected_timestamp : Nat
  sensor_id : String
  actual_value : String
  threshold_value : String
  duration_minutes : Nat
  severity : Nat
  corrective_action : Option String
deriving DecidableEq, Inhabited

/-- GPS tracking point (struct `GPSPoint`). -/
structure GPSPoint where
  latitude : String
  longitude : String
  timestamp : Nat
  accuracy_meters : Nat
  source : String
deriving DecidableEq, Inhabited

/-- IoT sensor reading (struct `SensorReading`). -/
structure SensorReading where
  sensor_id : String
  sensor_type : String
  value : String
  unit : String
  timestamp : Nat
  quality_score : Nat
  calibration_date : Nat
deriving DecidableEq, Inhabited

/-- Security alert (struct `SecurityAlert`). -/
structure SecurityAlert where
  alert_id : String
  alert_type : String
  severity : Nat
  timestamp : Nat
  location : Location
  description : String
  resolved : Bool
  resolution_timestamp : Option Nat
  resolution_notes : Option String
deriving DecidableEq, Inhabited

/-- Checkpoint verification (struct `CheckpointVerification`). -/
structure CheckpointVerification where
  checkpoint_name : String
  verifier : Address
  verification_timestamp : Nat
  verification_method : String
  verification_data : List Nat
  passed : Bool
  notes : String
deriving DecidableEq, Inhabited

/-- Customs declaration (struct `CustomsDeclaration`). -/
structure CustomsDeclaration where
  declaration_id : String
  customs_authority : Address
  declared_value : Nat
  currency : String
  commodity_codes : List String
  origin_country : String
  destination_country : String
  duty_paid : Bool
  inspection_required : Bool
  cleared_timestamp : Option Nat
deriving DecidableEq, Inhabited

/-- Document hash (struct `DocumentHash`). -/
structure DocumentHash where
  document_type : String
  hash_algorithm : String
  document_hash : List Nat
  uploaded_by : Address
  upload_timestamp : Nat
  verified : Bool
deriving DecidableEq, Inhabited

/-- Geographic tracking zone (struct `TrackingZone`). -/
structure TrackingZone where
  zone_name : String
  countries : List String
  special_requirements : List String
  risk_level : Nat
  checkpoint_frequency_hours : Nat
deriving DecidableEq, Inhabited

/-- Trading regulation definition (struct `TradeRegulation`). -/
structure TradeRegulation where
  regulation_id : String
  issuing_authority : String
  applicable_products : List String
  applicable_countries : List String
  requirements : List String
  effective_date : Nat
  expiry_date : Option Nat
deriving DecidableEq, Inhabited

/-- Shipment status enumeration (struct `ShipmentStatus`);
`status` is 0: Created, 1: InTransit, 2: Delivered, 3: Lost, 4: Delayed,
5: Recalled. -/
structure ShipmentStatus where
  status : Nat
  last_update : Nat
  updated_by : Address
deriving DecidableEq, Inhabited

/-- Individual shipment with multi-party verification (struct `Shipment`).
The `id: UID` field is dropped: the model tracks a single shipment. -/
structure Shipment where
  tracking_number : String
  product_passport_id : Nat
  origin : Location
  destination : Location
  current_location : Location
  shipper : Address
  consignee : Address
  current_custodian : Address
  authorized_handlers : List Address
  creation_timestamp : Nat
  estimated_delivery : Nat
  actual_delivery : Option Nat
  stages : List SupplyStage
  current_stage_index : Nat
  verification_checkpoints : Table String CheckpointVerification
  tamper_seals : List TamperSeal
  custody_signatures : List CustodySignature
  integrity_hash : List Nat
  environmental_requirements : EnvironmentalSpec
  condition_violations : List ConditionViolation
  trade_documents : Table String DocumentHash
  customs_declarations : List CustomsDeclaration
  insurance_policies : List String
  gps_coordinates : List GPSPoint
  sensor_readings : List SensorReading
  risk_score : Nat
  security_alerts : List SecurityAlert
deriving DecidableEq, Inhabited

/-- Multi-stage supply chain tracker (struct `SupplyChainTracker`), minus
the `active_shipments` table, which is carried per-shipment in `SysState`. -/
structure Tracker where
  admin : Address
  total_shipments : Nat
  manufacturers : Table Address ParticipantInfo
  distributors : Table Address ParticipantInfo
  retailers : Table Address ParticipantInfo
  customs_authorities : Table Address ParticipantInfo
  auditors : Table Address ParticipantInfo
  tracking_zones : Table String TrackingZone
  emergency_contacts : Table String Address
  trade_regulations : Table String TradeRegulation
deriving DecidableEq, Inhabited

/-- Combined on-chain state for one shipment: the shared tracker, the
shipment object, and the shipment's `ShipmentStatus` entry of
`tracker.active_shipments` (present in every reachable state). -/
structure SysState where
  tracker : Tracker
  shipment : Shipment
  status : ShipmentStatus
deriving DecidableEq, Inhabited

/-- Entry function `create_shipment`.  The `trade_documents` argument is a
list of document types that the source accepts but never stores (the
shipment's `trade_documents` table is created empty). -/
def create_shipment (tracker : Tracker) (product_passport_id : Nat)
    (tracking_number : String) (consignee : Address)
    (origin destination : Location) (estimated_delivery : Nat)
    (stages : List SupplyStage)
    (environmental_requirements : EnvironmentalSpec)
    (trade_documents : List String) (insurance_policies : List String)
    (timestamp : Nat) (sender : Address) : Except Nat SysState :=
  let _ := trade_documents
  let shipper := sender
  if Table.containsKey tracker.manufacturers shipper ||
      Table.containsKey tracker.distributors shipper then
    let shipment : Shipment := {
      tracking_number := tracking_number
      product_passport_id := product_passport_id
      origin := origin
      destination := destination
      current_location := origin
      shipper := shipper
      consignee := consignee
      current_custodian := shipper
      authorized_handlers := []
      creation_timestamp := timestamp
      estimated_delivery := estimated_delivery
      actual_delivery := none
      stages := stages
      current_stage_index := 0
      verification_checkpoints := []
      tamper_seals := []
      custody_signatures := []
      integrity_hash :=
        keccak256 (string_bytes tracking_number ++
          string_bytes origin.address ++ string_bytes destination.address)
      environmental_requirements := environmental_requirements
      condition_violations := []
      trade_documents := []
      customs_declarations := []
      insurance_policies := insurance_policies
      gps_coordinates := []
      sensor_readings := []
      risk_score := 0
      security_alerts := [] }
    .ok {
      tracker := { tracker with total_shipments := tracker.total_shipments + 1 }
      shipment := shipment
      status := { status := 0, last_update := timestamp, updated_by := shipper } }
  else
    .error ENotAuthorized

/-- Entry function `add_tamper_seal`. -/
def add_tamper_seal (st : SysState) (seal_id seal_type : String)
    (cryptographic_signature : List Nat) (timestamp : Nat)
    (sender : Address) : Except Nat SysState :=
  if sender = st.shipment.current_custodian then
    let tamper_seal : TamperSeal := {
      seal_id := seal_id
      seal_type := seal_type
      applied_by := sender
      applied_timestamp := timestamp
      cryptographic_signature := cryptographic_signature
      broken := false
      broken_timestamp := none
      break_detection_method := none }
    .ok { st with shipment :=
      { st.shipment with tamper_seals := st.shipment.tamper_seals ++ [tamper_seal] } }
  else
    .error ENotAuthorized

/-- Entry function `transfer_custody`. -/
def transfer_custody (st : SysState) (new_custodian : Address)
    (signature : List Nat) (action : String) (current_location : Location)
    (condition_notes : String) (witness : Option Address) (timestamp : Nat)
    (sender : Address) : Except Nat SysState :=
  if sender = st.shipment.current_custodian then
    if Table.containsKey st.tracker.manufacturers new_custodian ||
        Table.containsKey st.tracker.distributors new_custodian ||
        Table.containsKey st.tracker.retailers new_custodian ||
        Table.containsKey st.tracker.customs_authorities new_custodian then
      let custody_signature : CustodySignature := {
        signer := sender
        signature := signature
        timestamp := timestamp
        action := action
        location := current_location
        witness := witness
        condition_notes := condition_notes }
      .ok { st with
        shipment := { st.shipment with
          custody_signatures := st.shipment.custody_signatures ++ [custody_signature]
          current_custodian := new_custodian
          current_location := current_location }
        status := { st.status with last_update := timestamp, updated_by := new_custodian } }
    else
      .error ENotAuthorized
  else
    .error ENotAuthorized

/-- Entry function `complete_stage`. -/
def complete_stage (st : SysState) (verification_signatures : List (List Nat))
    (timestamp : Nat) (sender : Address) : Except Nat SysState :=
  let sh := st.shipment
  let stage_index := sh.current_stage_index
  if h : stage_index < sh.stages.length then
    let current_stage := sh.stages.get ⟨stage_index, h⟩
    if sender = current_stage.responsible_party then
      let updated_stage := { current_stage with
        completed := true
        completion_timestamp := some timestamp
        verification_signatures := verification_signatures }
      let sh' := { sh with
        stages := sh.stages.set stage_index updated_stage
        current_stage_index := stage_index + 1 }
      if stage_index + 1 ≥ sh.stages.length then
        .ok { st with
          shipment := { sh' with actual_delivery := some timestamp }
          status := { st.status with status := 2, last_update := timestamp } }
      else
        .ok { st with shipment := sh' }
    else
      .error ENotAuthorized
  else
    .error EInvalidTransition

/-- Entry function `report_security_incident`.  `risk_score` and `severity`
are Move `u8` values, so both `severity * 10` and the subsequent addition
abort on overflow past 255 before the saturation comparison runs. -/
def report_security_incident (st : SysState) (alert_type : String)
    (severity : Nat) (description : String) (timestamp : Nat)
    (sender : Address) : Except Nat SysState :=
  let _ := sender
  match string_utf8 (keccak256 (string_bytes alert_type)) with
  | .error e => .error e
  | .ok alert_id =>
    let sev10 := severity * 10
    if sev10 > 255 then .error EArithOverflow
    else
      let raw := st.shipment.risk_score + sev10
      if raw > 255 then .error EArithOverflow
      else
        let security_alert : SecurityAlert := {
          alert_id := alert_id
          alert_type := alert_type
          severity := severity
          timestamp := timestamp
          location := st.shipment.current_location
          description := description
          resolved := false
          resolution_timestamp := none
          resolution_notes := none }
        .ok { st with shipment := { st.shipment with
          security_alerts := st.shipment.security_alerts ++ [security_alert]
          risk_score := if raw > 100 then 100 else raw } }

/-- Entry function `add_gps_point`. -/
def add_gps_point (st : SysState) (latitude longitude : String)
    (accuracy_meters : Nat) (source : String) (timestamp : Nat)
    (sender : Address) : Except Nat SysState :=
  if sender = st.shipment.current_custodian ∨
      sender ∈ st.shipment.authorized_handlers then
    let gps_point : GPSPoint := {
      latitude := latitude
      longitude := longitude
      timestamp := timestamp
      accuracy_meters := accuracy_meters
      source := source }
    .ok { st with shipment := { st.shipment with
      gps_coordinates := st.shipment.gps_coordinates ++ [gps_point]
      current_location := { st.shipment.current_location with
        latitude := latitude
        longitude := longitude } } }
  else
    .error ENotAuthorized

/-- Internal function `check_environmental_violations`: for a
`"temperature"` reading, if the spec declares either temperature bound, a
fixed-shape violation is appended (the source never parses the value — its
comment reads "simplified check"); no other sensor type is checked. -/
def check_environmental_violations (shipment : Shipment)
    (sensor_reading : SensorReading) (timestamp : Nat) : Shipment :=
  let env_spec := shipment.environmental_requirements
  if sensor_reading.sensor_type = "temperature" then
    if env_spec.min_temperature.isSome || env_spec.max_temperature.isSome then
      let violation : ConditionViolation := {
        violation_type := "temperature"
        detected_timestamp := timestamp
        sensor_id := sensor_reading.sensor_id
        actual_value := sensor_reading.value
        threshold_value := "threshold"
        duration_minutes := 1
        severity := 3
        corrective_action := none }
      { shipment with
        condition_violations := shipment.condition_violations ++ [violation] }
    else shipment
  else shipment

/-- Entry function `add_sensor_reading`.  The transaction context is unused
in the source (`_ctx`): there is no caller check of any kind. -/
def add_sensor_reading (st : SysState) (sensor_id sensor_type value unit : String)
    (quality_score : Nat) (calibration_date : Nat) (timestamp : Nat)
    (sender : Address) : Except Nat SysState :=
  let _ := sender
  let sensor_reading : SensorReading := {
    sensor_id := sensor_id
    sensor_type := sensor_type
    value := value
    unit := unit
    timestamp := timestamp
    quality_score := quality_score
    calibration_date := calibration_date }
  let sh := { st.shipment with
    sensor_readings := st.shipment.sensor_readings ++ [sensor_reading] }
  .ok { st with shipment := check_environmental_violations sh sensor_reading timestamp }

/-- Admin entry function `register_participant` (acts on the tracker only). -/
def register_participant (tracker : Tracker) (participant : Address)
    (name : String) (public_key : List Nat) (role : String)
    (certifications : List String) (authorized_regions : List String)
    (sender : Address) : Except Nat Tracker :=
  if sender = tracker.admin then
    let participant_info : ParticipantInfo := {
      name := name
      public_key := public_key
      certifications := certifications
      authorized_regions := authorized_regions
      risk_rating := 0
      last_audit_timestamp := 0
      active := true }
    if role = "manufacturer" then
      (Table.addEntry tracker.manufacturers participant participant_info).map
        (fun t => { tracker with manufacturers := t })
    else if role = "distributor" then
      (Table.addEntry tracker.distributors participant participant_info).map
        (fun t => { tracker with distributors := t })
    else if role = "retailer" then
      (Table.addEntry tracker.retailers participant participant_info).map
        (fun t => { tracker with retailers := t })
    else if role = "customs" then
      (Table.addEntry tracker.customs_authorities participant participant_info).map
        (fun t => { tracker with customs_authorities := t })
    else if role = "auditor" then
      (Table.addEntry tracker.auditors participant participant_info).map
        (fun t => { tracker with auditors := t })
    else
      .ok tracker
  else
    .error ENotAuthorized

/-- One mutating operation on the system state, with its arguments. -/
inductive Op where
  | transferCustody (new_custodian : Address) (signature : List Nat)
      (action : String) (loc : Location) (condition_notes : String)
      (witness : Option Address)
  | completeStage (verification_signatures : List (List Nat))
  | addTamperSeal (seal_id seal_type : String) (sig : List Nat)
  | reportSecurityIncident (alert_type : String) (severity : Nat)
      (description : String)
  | addGpsPoint (latitude longitude : String) (accuracy_meters : Nat)
      (source : String)
  | addSensorReading (sensor_id sensor_type value unit : String)
      (quality_score calibration_date : Nat)
  | registerParticipant (participant : Address) (name : String)
      (public_key : List Nat) (role : String)
      (certifications authorized_regions : List String)
deriving DecidableEq, Inhabited

/-- Dispatch one operation, as a transaction that either succeeds or aborts. -/
def applyOp (op : Op) (sender : Address) (timestamp : Nat) (st : SysState) :
    Except Nat SysState :=
  match op with
  | .transferCustody nc sig act loc notes w =>
      transfer_custody st nc sig act loc notes w timestamp sender
  | .completeStage sigs =>
      complete_stage st sigs timestamp sender
  | .addTamperSeal sid sty sig =>
      add_tamper_seal st sid sty sig timestamp sender
  | .reportSecurityIncident ty sev desc =>
      report_security_incident st ty sev desc timestamp sender
  | .addGpsPoint lat long acc src =>
      add_gps_point st lat long acc src timestamp sender
  | .addSensorReading sid sty v u q c =>
      add_sensor_reading st sid sty v u q c timestamp sender
  | .registerParticipant p n pk role certs regions =>
      (register_participant st.tracker p n pk role certs regions sender).map
        (fun tr => { st with tracker := tr })

/-- Transaction semantics of one call: an abort rolls the state back, so a
failed operation leaves the state unchanged. -/
def applyOpTx (op : Op) (sender : Address) (timestamp : Nat) (st : SysState) :
    SysState :=
  match applyOp op sender timestamp st with
  | .ok st' => st'
  | .error _ => st

/-- One transaction: operation, sender, and clock timestamp. -/
structure TxCall where
  op : Op
  sender : Address
  timestamp : Nat
deriving Inhabited

/-- Run a sequence of transactions (aborted ones leave the state unchanged). -/
def runOps (calls : List TxCall) (st : SysState) : SysState :=
  calls.foldl (fun s c => applyOpTx c.op c.sender c.timestamp s) st

/-- Extract the state of a successful call (`default` is never reached in
the closed instances below, which all check `isOk` separately). -/
def expectState (e : Except Nat SysState) : SysState :=
  match e with
  | .ok st => st
  | .error _ => default

/-- Extract the tracker of a successful admin call (`default` is never
reached in the closed instances below, which check success separately). -/
def expectTracker (e : Except Nat Tracker) : Tracker :=
  match e with
  | .ok tr => tr
  | .error _ => default

/-- Table selected by a role string in `register_participant`
(empty table for an unrecognized role). -/
def role_table (tracker : Tracker) (role : String) : Table Address ParticipantInfo :=
  if role = "manufacturer" then tracker.manufacturers
  else if role = "distributor" then tracker.distributors
  else if role = "retailer" then tracker.retailers
  else if role = "customs" then tracker.customs_authorities
  else if role = "auditor" then tracker.auditors
  else []

/-! Concrete fixtures used by witnesses and counterexamples. -/

/-- Sample registered-participant record (as `register_participant` builds it). -/
def sampleInfo : ParticipantInfo :=
  { name := "P", public_key := [], certifications := [], authorized_regions := []
    risk_rating := 0, last_audit_timestamp := 0, active := true }

/-- Sample participant record whose `active` flag has been cleared (the spec
models deactivation as an external toggle of the flag). -/
def inactiveInfo : ParticipantInfo :=
  { sampleInfo with active := false }

/-- Sample tracker: admin `0`, manufacturer `1`, distributor `2`. -/
def tracker0 : Tracker :=
  { admin := 0, total_shipments := 0
    manufacturers := [(1, sampleInfo)]
    distributors := [(2, sampleInfo)]
    retailers := [], customs_authorities := [], auditors := []
    tracking_zones := [], emergency_contacts := [], trade_regulations := [] }

/-- Sample tracker whose distributor `2` is registered but inactive. -/
def trackerInactive : Tracker :=
  { tracker0 with distributors := [(2, inactiveInfo)] }

/-- Sample origin location. -/
def locO : Location :=
  { latitude := "1.0", longitude := "2.0", address := "origin street"
    country_code := "DE", region := "EU", facility_type := "factory"
    facility_id := some "F1" }

/-- Sample destination location. -/
def locD : Location :=
  { latitude := "3.0", longitude := "4.0", address := "dest street"
    country_code := "FR", region := "EU", facility_type := "warehouse"
    facility_id := none }

/-- Environmental spec with no bounds declared. -/
def specNone : EnvironmentalSpec :=
  { min_temperature := none, max_temperature := none, min_humidity := none
    max_humidity := none, pressure_requirements := none, vibration_limits := none
    light_exposure_max := none, time_sensitive := false, max_exposure_hours := none }

/-- Environmental spec declaring `max_temperature = 30` and `max_humidity = 50`. -/
def specBounds : EnvironmentalSpec :=
  { specNone with max_temperature := some 30, max_humidity := some 50 }

/-- Stage responsible to the manufacturer `1`. -/
def stageA : SupplyStage :=
  { stage_name := "A", responsible_party := 1, location := locO
    required_verifications := [], estimated_duration_hours := 1
    mandatory_documents := [], environmental_constraints := specNone
    completed := false, completion_timestamp := none, verification_signatures := [] }

/-- Stage responsible to the distributor `2`. -/
def stageB : SupplyStage :=
  { stageA with stage_name := "B", responsible_party := 2, location := locD }

/-- Shipment created by manufacturer `1` over `tracker0` (no env bounds). -/
def stCreated : SysState :=
  expectState (create_shipment tracker0 5 "TN1" 3 locO locD 1000 [stageA, stageB]
    specNone [] [] 10 1)

/-- Shipment created by manufacturer `1` with temperature/humidity bounds. -/
def stCreatedBounds : SysState :=
  expectState (create_shipment tracker0 5 "TN2" 3 locO locD 1000 [stageA, stageB]
    specBounds [] [] 10 1)

/-- Shipment created by manufacturer `1` over the inactive-distributor tracker. -/
def stCreatedInactive : SysState :=
  expectState (create_shipment trackerInactive 5 "TN3" 3 locO locD 1000
    [stageA, stageB] specNone [] [] 10 1)

/-! Theorems. -/

/-- Claim C4, behavior of the code at the failing input:
`report_security_incident` builds its alert id as
`string::utf8(keccak256(alert_type))`, and the keccak-256 digest of
"tamper" is not valid UTF-8, so the call aborts with the UTF-8 abort —
no `SecurityAlert` is appended and ten severity-5 incidents leave the
risk score at 0, not 100, contradicting the claimed accumulator update. -/
theorem C4_code_behavior :
    string_utf8 (keccak256 (string_bytes "tamper")) = .error EInvalidUtf8 ∧
    report_security_incident stCreated "tamper" 5 "d" 30 9
      = .error EInvalidUtf8 ∧
    stCreated.shipment.risk_score = 0 ∧
    (runOps (List.replicate 10 ⟨.reportSecurityIncident "tamper" 5 "sev5", 9, 11⟩)
        stCreated).shipment.risk_score = 0 ∧
    (runOps (List.replicate 10 ⟨.reportSecurityIncident "tamper" 5 "sev5", 9, 11⟩)
        stCreated).shipment.security_alerts = [] := by
  refine ⟨by rfl, by rfl, by decide, by decide, by decide⟩

/-- Claim C10: when the registry admin registers a participant under a role
string other than the five recognized values, the call succeeds and returns
the tracker unchanged, so the participant is added to no role table and
remains unauthorized for every operation. -/
theorem C10_unknown_role :
    ∀ (tracker : Tracker) (participant : Address) (name : String)
      (pk : List Nat) (role : String) (certs regions : List String),
      role ≠ "manufacturer" → role ≠ "distributor" → role ≠ "retailer" →
      role ≠ "customs" → role ≠ "auditor" →
      register_participant tracker participant name pk role certs regions
        tracker.admin = .ok tracker := by
  intro tracker p nm pk role certs regions h1 h2 h3 h4 h5
  unfold register_participant
  simp [h1, h2, h3, h4, h5]

/-- Witness for C10: registering role "hauler" as admin leaves `tracker0`
unchanged. -/
theorem C10_witness :
    ("hauler" ≠ "manufacturer" ∧ "hauler" ≠ "distributor" ∧
      "hauler" ≠ "retailer" ∧ "hauler" ≠ "customs" ∧ "hauler" ≠ "auditor") ∧
    register_participant tracker0 7 "N" [] "hauler" [] [] tracker0.admin
      = .ok tracker0 :=
  ⟨⟨by decide, by decide, by decide, by decide, by decide⟩,
    C10_unknown_role tracker0 7 "N" [] "hauler" [] []
      (by decide) (by decide) (by decide) (by decide) (by decide)⟩

/-- Claim C9: a successful `add_gps_point` call appends exactly one entry to
the GPS trail (replaying the identical call yields a second entry) and
updates only the latitude and longitude of `current_location`, leaving its
address, country code, region, facility type, and facility id unchanged. -/
theorem C9_add_gps_point :
    ∀ (st : SysState) (lat long : String) (acc : Nat) (src : String)
      (t : Nat) (sender : Address),
      (sender = st.shipment.current_custodian ∨
        sender ∈ st.shipment.authorized_handlers) →
      ∃ st', add_gps_point st lat long acc src t sender = .ok st' ∧
        st'.shipment.gps_coordinates
          = st.shipment.gps_coordinates ++ [⟨lat, long, t, acc, src⟩] ∧
        st'.shipment.gps_coordinates.length
          = st.shipment.gps_coordinates.length + 1 ∧
        st'.shipment.current_location.latitude = lat ∧
        st'.shipment.current_location.longitude = long ∧
        st'.shipment.current_location.address
          = st.shipment.current_location.address ∧
        st'.shipment.current_location.country_code
          = st.shipment.current_location.country_code ∧
        st'.shipment.current_location.region
          = st.shipment.current_location.region ∧
        st'.shipment.current_location.facility_type
          = st.shipment.current_location.facility_type ∧
        st'.shipment.current_location.facility_id
          = st.shipment.current_location.facility_id ∧
        ∃ st'', add_gps_point st' lat long acc src t sender = .ok st'' ∧
          st''.shipment.gps_coordinates.length
            = st.shipment.gps_coordinates.length + 2 := by
  intro st lat long acc src t sender hauth
  unfold add_gps_point
  rw [if_pos hauth]
  refine ⟨_, rfl, rfl, by simp, rfl, rfl, rfl, rfl, rfl, rfl, rfl, ?_⟩
  rw [if_pos (by dsimp only; exact hauth)]
  exact ⟨_, rfl, by simp⟩

/-- Witness for C9: the theorem applied to the freshly created shipment with
the current custodian as sender. -/
theorem C9_witness :
    ((1 : Address) = stCreated.shipment.current_custodian ∨
      (1 : Address) ∈ stCreated.shipment.authorized_handlers) ∧
    (∃ st', add_gps_point stCreated "9.9" "8.8" 5 "device" 60 1 = .ok st' ∧
      st'.shipment.gps_coordinates
        = stCreated.shipment.gps_coordinates ++ [⟨"9.9", "8.8", 60, 5, "device"⟩] ∧
      st'.shipment.gps_coordinates.length
        = stCreated.shipment.gps_coordinates.length + 1 ∧
      st'.shipment.current_location.latitude = "9.9" ∧
      st'.shipment.current_location.longitude = "8.8" ∧
      st'.shipment.current_location.address
        = stCreated.shipment.current_location.address ∧
      st'.shipment.current_location.country_code
        = stCreated.shipment.current_location.country_code ∧
      st'.shipment.current_location.region
        = stCreated.shipment.current_location.region ∧
      st'.shipment.current_location.facility_type
        = stCreated.shipment.current_location.facility_type ∧
      st'.shipment.current_location.facility_id
        = stCreated.shipment.current_location.facility_id ∧
      ∃ st'', add_gps_point st' "9.9" "8.8" 5 "device" 60 1 = .ok st'' ∧
        st''.shipment.gps_coordinates.length
          = stCreated.shipment.gps_coordinates.length + 2) :=
  ⟨Or.inl (by decide),
    C9_add_gps_point stCreated "9.9" "8.8" 5 "device" 60 1 (Or.inl (by decide))⟩

/-- Claim C6: with stages remaining, `complete_stage` by the responsible
party of the current stage marks that stage completed with the timestamp and
the supplied signatures and advances the index by exactly one; if the
completed stage was the last one it also sets `actual_delivery` and the
tracker status to Delivered (2); a call by any other party fails with
`ENotAuthorized` and leaves the state (in particular the index and the
stage) unchanged. -/
theorem C6_complete_stage :
    ∀ (st : SysState) (sigs : List (List Nat)) (t : Nat) (sender : Address)
      (stg : SupplyStage),
      st.shipment.stages.get? st.shipment.current_stage_index = some stg →
      (sender = stg.responsible_party →
        ∃ st', complete_stage st sigs t sender = .ok st' ∧
          st'.shipment.current_stage_index
            = st.shipment.current_stage_index + 1 ∧
          st'.shipment.stages
            = st.shipment.stages.set st.shipment.current_stage_index
                { stg with completed := true, completion_timestamp := some t,
                           verification_signatures := sigs } ∧
          (st.shipment.current_stage_index + 1 = st.shipment.stages.length →
            st'.shipment.actual_delivery = some t ∧
            st'.status.status = 2 ∧ st'.status.last_update = t) ∧
          (st.shipment.current_stage_index + 1 < st.shipment.stages.length →
            st'.shipment.actual_delivery = st.shipment.actual_delivery ∧
            st'.status = st.status)) ∧
      (sender ≠ stg.responsible_party →
        complete_stage st sigs t sender = .error ENotAuthorized ∧
        applyOpTx (.completeStage sigs) sender t st = st) := by
  intro st sigs t sender stg hget
  have hlt : st.shipment.current_stage_index < st.shipment.stages.length :=
    List.get?_eq_some.mp hget |>.1
  have hgetval : st.shipment.stages.get ⟨st.shipment.current_stage_index, hlt⟩ = stg := by
    have := List.get?_eq_get hlt
    rw [hget] at this
    exact (Option.some.injEq _ _ |>.mp this.symm)
  constructor
  · intro hresp
    unfold complete_stage
    rw [dif_pos hlt, if_pos (by rw [hgetval]; exact hresp)]
    by_cases hend : st.shipment.current_stage_index + 1 ≥ st.shipment.stages.length
    · rw [if_pos hend]
      refine ⟨_, rfl, by dsimp only, by dsimp only; rw [hgetval], ?_, ?_⟩
      · intro _; exact ⟨rfl, rfl, rfl⟩
      · intro hmid; omega
    · rw [if_neg hend]
      refine ⟨_, rfl, by dsimp only, by dsimp only; rw [hgetval], ?_, ?_⟩
      · intro heq; omega
      · intro _; exact ⟨rfl, rfl⟩
  · intro hresp
    have herr : complete_stage st sigs t sender = .error ENotAuthorized := by
      unfold complete_stage
      rw [dif_pos hlt, if_neg (by rw [hgetval]; exact hresp)]
    refine ⟨herr, ?_⟩
    simp only [applyOpTx, applyOp, herr]

/-- Witness for C6: both branches of the theorem at the created two-stage
shipment; stage 0 is responsible to party 1, so sender 1 succeeds and
sender 2 is rejected. -/
theorem C6_witness :
    stCreated.shipment.stages.get? stCreated.shipment.current_stage_index
      = some stageA ∧
    (1 : Address) = stageA.responsible_party ∧
    (2 : Address) ≠ stageA.responsible_party ∧
    (∃ st', complete_stage stCreated [[1]] 40 1 = .ok st' ∧
      st'.shipment.current_stage_index
        = stCreated.shipment.current_stage_index + 1 ∧
      st'.shipment.stages
        = stCreated.shipment.stages.set stCreated.shipment.current_stage_index
            { stageA with completed := true, completion_timestamp := some 40,
                          verification_signatures := [[1]] } ∧
      (stCreated.shipment.current_stage_index + 1
          = stCreated.shipment.stages.length →
        st'.shipment.actual_delivery = some 40 ∧
        st'.status.status = 2 ∧ st'.status.last_update = 40) ∧
      (stCreated.shipment.current_stage_index + 1
          < stCreated.shipment.stages.length →
        st'.shipment.actual_delivery = stCreated.shipment.actual_delivery ∧
        st'.status = stCreated.status)) ∧
    (complete_stage stCreated [[1]] 40 2 = .error ENotAuthorized ∧
      applyOpTx (.completeStage [[1]]) 2 40 stCreated = stCreated) :=
  ⟨by decide, by decide, by decide,
    (C6_complete_stage stCreated [[1]] 40 1 stageA (by decide)).1 (by decide),
    (C6_complete_stage stCreated [[1]] 40 2 stageA (by decide)).2 (by decide)⟩

/-- A transaction either aborts (state unchanged) or commits its result. -/
theorem applyOpTx_cases (op : Op) (sender t : Nat) (st : SysState) :
    applyOpTx op sender t st = st ∨
    ∃ st', applyOp op sender t st = .ok st' ∧ applyOpTx op sender t st = st' := by
  unfold applyOpTx
  cases h : applyOp op sender t st
  · exact Or.inl rfl
  · exact Or.inr ⟨_, rfl, rfl⟩

/-- `check_environmental_violations` only ever touches the
`condition_violations` field of the shipment. -/
theorem check_env_eq (sh : Shipment) (r : SensorReading) (t : Nat) :
    ∃ v, check_environmental_violations sh r t
      = { sh with condition_violations := v } := by
  unfold check_environmental_violations
  dsimp only
  split_ifs <;> exact ⟨_, rfl⟩

/-- Frame lemma: every transaction preserves the shipper; it either leaves
the custody chain and custodian unchanged or appends exactly one chain
entry; and it either leaves the stage list and stage index unchanged or
(only when the index is in range) overwrites the stage at the current index
with a completed one and advances the index by exactly one. -/
theorem applyOpTx_frame (op : Op) (sender t : Nat) (st : SysState) :
    (applyOpTx op sender t st).shipment.shipper = st.shipment.shipper ∧
    (((applyOpTx op sender t st).shipment.custody_signatures
        = st.shipment.custody_signatures ∧
      (applyOpTx op sender t st).shipment.current_custodian
        = st.shipment.current_custodian) ∨
     (∃ cs, (applyOpTx op sender t st).shipment.custody_signatures
        = st.shipment.custody_signatures ++ [cs])) ∧
    (((applyOpTx op sender t st).shipment.stages = st.shipment.stages ∧
      (applyOpTx op sender t st).shipment.current_stage_index
        = st.shipment.current_stage_index) ∨
     (st.shipment.current_stage_index < st.shipment.stages.length ∧
      ∃ stg', stg'.completed = true ∧
        (applyOpTx op sender t st).shipment.stages
          = st.shipment.stages.set st.shipment.current_stage_index stg' ∧
        (applyOpTx op sender t st).shipment.current_stage_index
          = st.shipment.current_stage_index + 1)) := by
  rcases applyOpTx_cases op sender t st with htx | ⟨st2, hok, htx⟩
  · rw [htx]
    exact ⟨rfl, Or.inl ⟨rfl, rfl⟩, Or.inl ⟨rfl, rfl⟩⟩
  · rw [htx]
    cases op with
    | transferCustody nc sig act loc notes w =>
        simp only [applyOp] at hok
        unfold transfer_custody at hok
        dsimp only at hok
        split_ifs at hok
        simp only [Except.ok.injEq] at hok
        subst hok
        exact ⟨rfl, Or.inr ⟨_, rfl⟩, Or.inl ⟨rfl, rfl⟩⟩
    | completeStage sigs =>
        simp only [applyOp] at hok
        unfold complete_stage at hok
        dsimp only at hok
        split_ifs at hok with hlt hresp hend
        · simp only [Except.ok.injEq] at hok
          subst hok
          exact ⟨rfl, Or.inl ⟨rfl, rfl⟩, Or.inr ⟨hlt, _, rfl, rfl, rfl⟩⟩
        · simp only [Except.ok.injEq] at hok
          subst hok
          exact ⟨rfl, Or.inl ⟨rfl, rfl⟩, Or.inr ⟨hlt, _, rfl, rfl, rfl⟩⟩
    | addTamperSeal sid sty sig =>
        simp only [applyOp] at hok
        unfold add_tamper_seal at hok
        dsimp only at hok
        split_ifs at hok
        simp only [Except.ok.injEq] at hok
        subst hok
        exact ⟨rfl, Or.inl ⟨rfl, rfl⟩, Or.inl ⟨rfl, rfl⟩⟩
    | reportSecurityIncident ty sev desc =>
        simp only [applyOp] at hok
        unfold report_security_incident at hok
        dsimp only at hok
        cases hu : string_utf8 (keccak256 (string_bytes ty)) with
        | error e =>
            rw [hu] at hok
            exact absurd hok (by simp)
        | ok aid =>
            rw [hu] at hok
            dsimp only at hok
            split_ifs at hok
            all_goals simp only [Except.ok.injEq] at hok
            all_goals subst hok
            all_goals exact ⟨rfl, Or.inl ⟨rfl, rfl⟩, Or.inl ⟨rfl, rfl⟩⟩
    | addGpsPoint lat long acc src =>
        simp only [applyOp] at hok
        unfold add_gps_point at hok
        dsimp only at hok
        split_ifs at hok
        simp only [Except.ok.injEq] at hok
        subst hok
        exact ⟨rfl, Or.inl ⟨rfl, rfl⟩, Or.inl ⟨rfl, rfl⟩⟩
    | addSensorReading sid sty v u q c =>
        simp only [applyOp] at hok
        unfold add_sensor_reading at hok
        dsimp only at hok
        simp only [Except.ok.injEq] at hok
        obtain ⟨cv, hcv⟩ := check_env_eq
          { st.shipment with
            sensor_readings := st.shipment.sensor_readings ++
              [⟨sid, sty, v, u, t, q, c⟩] }
          ⟨sid, sty, v, u, t, q, c⟩ t
        rw [hcv] at hok
        subst hok
        exact ⟨rfl, Or.inl ⟨rfl, rfl⟩, Or.inl ⟨rfl, rfl⟩⟩
    | registerParticipant p n pk role certs regions =>
        simp only [applyOp] at hok
        cases hreg : register_participant st.tracker p n pk role certs regions sender with
        | ok tr =>
            rw [hreg] at hok
            simp only [Except.map, Except.ok.injEq] at hok
            subst hok
            exact ⟨rfl, Or.inl ⟨rfl, rfl⟩, Or.inl ⟨rfl, rfl⟩⟩
        | error e =>
            rw [hreg] at hok
            exact absurd hok (by simp [Except.map])

/-- Claim C5: under every operation the stage index is monotonically
non-decreasing (advancing by at most one), the stage list keeps its length,
entries other than the current one are untouched, completed stages never
become uncompleted, and along any transaction sequence the index never
exceeds the number of stages. -/
theorem C5_stage_index_invariants :
    (∀ (op : Op) (sender t : Nat) (st : SysState),
      st.shipment.current_stage_index
          ≤ (applyOpTx op sender t st).shipment.current_stage_index ∧
      (applyOpTx op sender t st).shipment.stages.length
          = st.shipment.stages.length ∧
      ((applyOpTx op sender t st).shipment.current_stage_index
          = st.shipment.current_stage_index ∨
        (applyOpTx op sender t st).shipment.current_stage_index
          = st.shipment.current_stage_index + 1) ∧
      (st.shipment.current_stage_index ≤ st.shipment.stages.length →
        (applyOpTx op sender t st).shipment.current_stage_index
          ≤ (applyOpTx op sender t st).shipment.stages.length) ∧
      (∀ j, j ≠ st.shipment.current_stage_index →
        (applyOpTx op sender t st).shipment.stages.get? j
          = st.shipment.stages.get? j) ∧
      (∀ j stg, st.shipment.stages.get? j = some stg → stg.completed = true →
        ∃ stg', (applyOpTx op sender t st).shipment.stages.get? j = some stg' ∧
          stg'.completed = true)) ∧
    (∀ (calls : List TxCall) (st : SysState),
      st.shipment.current_stage_index ≤ st.shipment.stages.length →
      (runOps calls st).shipment.current_stage_index
        ≤ (runOps calls st).shipment.stages.length) := by
  have hmain : ∀ (op : Op) (sender t : Nat) (st : SysState),
      st.shipment.current_stage_index
          ≤ (applyOpTx op sender t st).shipment.current_stage_index ∧
      (applyOpTx op sender t st).shipment.stages.length
          = st.shipment.stages.length ∧
      ((applyOpTx op sender t st).shipment.current_stage_index
          = st.shipment.current_stage_index ∨
        (applyOpTx op sender t st).shipment.current_stage_index
          = st.shipment.current_stage_index + 1) ∧
      (st.shipment.current_stage_index ≤ st.shipment.stages.length →
        (applyOpTx op sender t st).shipment.current_stage_index
          ≤ (applyOpTx op sender t st).shipment.stages.length) ∧
      (∀ j, j ≠ st.shipment.current_stage_index →
        (applyOpTx op sender t st).shipment.stages.get? j
          = st.shipment.stages.get? j) ∧
      (∀ j stg, st.shipment.stages.get? j = some stg → stg.completed = true →
        ∃ stg', (applyOpTx op sender t st).shipment.stages.get? j = some stg' ∧
          stg'.completed = true) := by
    intro op sender t st
    obtain ⟨-, -, hstage⟩ := applyOpTx_frame op sender t st
    rcases hstage with ⟨hs, hi⟩ | ⟨hlt, stg', hc, hs, hi⟩
    · rw [hs, hi]
      exact ⟨le_refl _, rfl, Or.inl rfl, fun h => h, fun j _ => rfl,
        fun j stg hj hcomp => ⟨stg, hj, hcomp⟩⟩
    · rw [hs, hi]
      refine ⟨Nat.le_succ _, List.length_set .., Or.inr rfl,
        fun _ => by rw [List.length_set]; omega, ?_, ?_⟩
      · intro j hj
        exact List.get?_set_ne _ _ (Ne.symm hj)
      · intro j stg hget hcomp
        by_cases hjidx : j = st.shipment.current_stage_index
        · subst hjidx
          exact ⟨stg', List.get?_set_eq_of_lt _ hlt, hc⟩
        · exact ⟨stg, by rw [List.get?_set_ne _ _ (Ne.symm hjidx)]; exact hget, hcomp⟩
  refine ⟨hmain, ?_⟩
  intro calls
  induction calls with
  | nil => intro st h; exact h
  | cons c cs ih =>
      intro st h
      exact ih (applyOpTx c.op c.sender c.timestamp st)
        ((hmain c.op c.sender c.timestamp st).2.2.2.1 h)

/-- Witness for C5: the theorem applied at concrete operations on the
two-stage shipment, with the bound and index hypotheses discharged. -/
theorem C5_witness :
    (applyOpTx (.addGpsPoint "9" "8" 5 "d") 1 60 stCreated).shipment.stages.length
      = stCreated.shipment.stages.length ∧
    (stCreated.shipment.current_stage_index ≤ stCreated.shipment.stages.length ∧
      (applyOpTx (.completeStage [[1]]) 1 40 stCreated).shipment.current_stage_index
        ≤ (applyOpTx (.completeStage [[1]]) 1 40 stCreated).shipment.stages.length) ∧
    (runOps [⟨.completeStage [[1]], 1, 40⟩, ⟨.completeStage [[2]], 2, 50⟩]
        stCreated).shipment.current_stage_index
      ≤ (runOps [⟨.completeStage [[1]], 1, 40⟩, ⟨.completeStage [[2]], 2, 50⟩]
        stCreated).shipment.stages.length :=
  ⟨(C5_stage_index_invariants.1 (.addGpsPoint "9" "8" 5 "d") 1 60 stCreated).2.1,
   ⟨by decide,
    (C5_stage_index_invariants.1 (.completeStage [[1]]) 1 40 stCreated).2.2.2.1
      (by decide)⟩,
   C5_stage_index_invariants.2
     [⟨.completeStage [[1]], 1, 40⟩, ⟨.completeStage [[2]], 2, 50⟩] stCreated
     (by decide)⟩

/-- Counterexample to claim C1: after a successful transfer from shipper 1
to distributor 2, the signer of the most recent custody-chain entry is the
previous custodian 1, not the current custodian 2. -/
theorem C1_counterexample :
    (transfer_custody stCreated 2 [7] "handover" locD "ok" none 20 1).isOk = true ∧
    (expectState (transfer_custody stCreated 2 [7] "handover" locD "ok" none 20 1)
      ).shipment.custody_signatures ≠ [] ∧
    ((expectState (transfer_custody stCreated 2 [7] "handover" locD "ok" none 20 1)
      ).shipment.custody_signatures.getLast?).map CustodySignature.signer
      = some 1 ∧
    (expectState (transfer_custody stCreated 2 [7] "handover" locD "ok" none 20 1)
      ).shipment.current_custodian = 2 ∧
    ((expectState (transfer_custody stCreated 2 [7] "handover" locD "ok" none 20 1)
      ).shipment.custody_signatures.getLast?).map CustodySignature.signer
      ≠ some ((expectState
        (transfer_custody stCreated 2 [7] "handover" locD "ok" none 20 1)
      ).shipment.current_custodian) := by
  refine ⟨by decide, by decide, by decide, by decide, by decide⟩

/-- Claim C1 (amended): after `create_shipment` the custody chain is empty
and `current_custodian` equals the shipper; every successful
`transfer_custody` appends exactly one entry whose signer is the previous
custodian (the caller) and sets `current_custodian` to the transfer's
`new_custodian` argument — so the most recent entry's signer is the
custodian who handed off, not the current custodian; and the invariant
"empty chain implies custodian = shipper" is preserved by every operation. -/
theorem C1_custody_amended :
    (∀ (tracker : Tracker) (ppid : Nat) (tn : String) (consignee : Address)
        (o d : Location) (eta : Nat) (stages : List SupplyStage)
        (env : EnvironmentalSpec) (docs ins : List String) (t : Nat)
        (sender : Address) (st0 : SysState),
      create_shipment tracker ppid tn consignee o d eta stages env docs ins t
          sender = .ok st0 →
      st0.shipment.custody_signatures = [] ∧
      st0.shipment.current_custodian = st0.shipment.shipper) ∧
    (∀ (st : SysState) (nc : Address) (sig : List Nat) (act : String)
        (loc : Location) (notes : String) (w : Option Address) (t : Nat)
        (sender : Address) (st' : SysState),
      transfer_custody st nc sig act loc notes w t sender = .ok st' →
      st'.shipment.current_custodian = nc ∧
      st'.shipment.custody_signatures = st.shipment.custody_signatures ++
        [⟨st.shipment.current_custodian, sig, t, act, loc, w, notes⟩] ∧
      (st'.shipment.custody_signatures.getLast?).map CustodySignature.signer
        = some st.shipment.current_custodian) ∧
    (∀ (op : Op) (sender t : Nat) (st : SysState),
      (st.shipment.custody_signatures = [] →
        st.shipment.current_custodian = st.shipment.shipper) →
      ((applyOpTx op sender t st).shipment.custody_signatures = [] →
        (applyOpTx op sender t st).shipment.current_custodian
          = (applyOpTx op sender t st).shipment.shipper)) := by
  refine ⟨?_, ?_, ?_⟩
  · intro tracker ppid tn consignee o d eta stages env docs ins t sender st0 h
    unfold create_shipment at h
    dsimp only at h
    split_ifs at h
    simp only [Except.ok.injEq] at h
    subst h
    exact ⟨rfl, rfl⟩
  · intro st nc sig act loc notes w t sender st' h
    unfold transfer_custody at h
    split_ifs at h with hcust htab
    simp only [Except.ok.injEq] at h
    subst h
    subst hcust
    exact ⟨rfl, rfl, by simp [List.getLast?_concat]⟩
  · intro op sender t st hinv
    obtain ⟨hship, hcust, -⟩ := applyOpTx_frame op sender t st
    rcases hcust with ⟨hchain, hcur⟩ | ⟨cs, hchain⟩
    · intro hempty
      rw [hchain] at hempty
      rw [hchain, hcur, hship] at *
      exact hinv hempty
    · intro hempty
      rw [hchain] at hempty
      exact absurd hempty (by simp)

/-- Witness for C1's amended theorem: all three parts applied at the
concrete creation and a concrete transfer, hypotheses discharged. -/
theorem C1_custody_amended_witness :
    (stCreated.shipment.custody_signatures = [] ∧
      stCreated.shipment.current_custodian = stCreated.shipment.shipper) ∧
    ((expectState (transfer_custody stCreated 2 [7] "handover" locD "ok" none 20 1)
        ).shipment.current_custodian = 2 ∧
      (expectState (transfer_custody stCreated 2 [7] "handover" locD "ok" none 20 1)
        ).shipment.custody_signatures = stCreated.shipment.custody_signatures ++
          [⟨stCreated.shipment.current_custodian, [7], 20, "handover", locD,
            none, "ok"⟩] ∧
      ((expectState (transfer_custody stCreated 2 [7] "handover" locD "ok" none 20 1)
        ).shipment.custody_signatures.getLast?).map CustodySignature.signer
        = some stCreated.shipment.current_custodian) ∧
    ((applyOpTx (.addGpsPoint "9" "8" 5 "d") 1 60 stCreated
        ).shipment.custody_signatures = [] →
      (applyOpTx (.addGpsPoint "9" "8" 5 "d") 1 60 stCreated
        ).shipment.current_custodian
        = (applyOpTx (.addGpsPoint "9" "8" 5 "d") 1 60 stCreated).shipment.shipper) :=
  ⟨C1_custody_amended.1 tracker0 5 "TN1" 3 locO locD 1000 [stageA, stageB]
      specNone [] [] 10 1 stCreated (by rfl),
   C1_custody_amended.2.1 stCreated 2 [7] "handover" locD "ok" none 20 1
      (expectState (transfer_custody stCreated 2 [7] "handover" locD "ok" none 20 1))
      (by rfl),
   C1_custody_amended.2.2 (.addGpsPoint "9" "8" 5 "d") 1 60 stCreated
      (fun _ => by decide)⟩

/-- Counterexample to claim C2: sender 99 is in none of the participant
tables, yet `add_sensor_reading` succeeds, and `report_security_incident`
does not fail with `Unauthorized` either — it aborts with the UTF-8 abort
raised while building the alert id, an outcome independent of the caller
(the registered sender 1 gets the identical result). -/
theorem C2_counterexample :
    (stCreated.tracker.manufacturers.lookup 99 = none ∧
      stCreated.tracker.distributors.lookup 99 = none ∧
      stCreated.tracker.retailers.lookup 99 = none ∧
      stCreated.tracker.customs_authorities.lookup 99 = none ∧
      stCreated.tracker.auditors.lookup 99 = none) ∧
    (add_sensor_reading stCreated "s1" "temperature" "20" "C" 90 0 30 99).isOk
      = true ∧
    report_security_incident stCreated "tamper" 3 "d" 30 99
      = .error EInvalidUtf8 ∧
    EInvalidUtf8 ≠ ENotAuthorized ∧
    report_security_incident stCreated "tamper" 3 "d" 30 99
      = report_security_incident stCreated "tamper" 3 "d" 30 1 := by
  refine ⟨⟨by decide, by decide, by decide, by decide, by decide⟩,
    by decide, by rfl, by decide, by rfl⟩

/-- Helper: `string_utf8` only ever aborts with the UTF-8 abort code. -/
theorem string_utf8_error {b : List Nat} {e : Nat}
    (h : string_utf8 b = .error e) : e = EInvalidUtf8 := by
  unfold string_utf8 at h
  cases hd : utf8Decode b
  · rw [hd] at h
    dsimp only at h
    simp only [Except.error.injEq] at h
    exact h.symm
  · rw [hd] at h
    exact absurd h (by simp)

/-- Claim C2 (amended): `add_sensor_reading` and `report_security_incident`
perform no caller validation at all — the former always succeeds for any
sender, and the latter's result does not depend on the sender and is never
an `Unauthorized` failure (though it does abort with the UTF-8 abort while
building its alert id for alert types whose keccak digest is not valid
UTF-8) — while `transfer_custody` and `add_tamper_seal` validate the caller
against the shipment's `current_custodian` (not against the participant
tables), and `complete_stage` against the stage's responsible party. -/
theorem C2_caller_validation_amended :
    (∀ (st : SysState) (sid sty v u : String) (q c t : Nat) (sender : Address),
      (add_sensor_reading st sid sty v u q c t sender).isOk = true) ∧
    (∀ (st : SysState) (ty : String) (sev : Nat) (desc : String) (t : Nat)
        (s1 s2 : Address),
      report_security_incident st ty sev desc t s1
        = report_security_incident st ty sev desc t s2) ∧
    (∀ (st : SysState) (ty : String) (sev : Nat) (desc : String) (t : Nat)
        (sender : Address),
      report_security_incident st ty sev desc t sender ≠ .error ENotAuthorized) ∧
    (∀ (st : SysState) (sid sty : String) (sig : List Nat) (t : Nat)
        (sender : Address),
      sender ≠ st.shipment.current_custodian →
      add_tamper_seal st sid sty sig t sender = .error ENotAuthorized) ∧
    (∀ (st : SysState) (nc : Address) (sig : List Nat) (act : String)
        (loc : Location) (notes : String) (w : Option Address) (t : Nat)
        (sender : Address),
      sender ≠ st.shipment.current_custodian →
      transfer_custody st nc sig act loc notes w t sender
        = .error ENotAuthorized) ∧
    (∀ (st : SysState) (sigs : List (List Nat)) (t : Nat) (sender : Address)
        (stg : SupplyStage),
      st.shipment.stages.get? st.shipment.current_stage_index = some stg →
      sender ≠ stg.responsible_party →
      complete_stage st sigs t sender = .error ENotAuthorized) := by
  refine ⟨?_, ?_, ?_, ?_, ?_, ?_⟩
  · intro st sid sty v u q c t sender
    unfold add_sensor_reading
    rfl
  · intro st ty sev desc t s1 s2
    rfl
  · intro st ty sev desc t sender h
    unfold report_security_incident at h
    dsimp only at h
    cases hu : string_utf8 (keccak256 (string_bytes ty)) with
    | error e =>
        rw [hu] at h
        dsimp only at h
        have he : e = EInvalidUtf8 := string_utf8_error hu
        simp only [Except.error.injEq] at h
        rw [he] at h
        exact absurd h (by unfold EInvalidUtf8 ENotAuthorized; omega)
    | ok aid =>
        rw [hu] at h
        dsimp only at h
        split_ifs at h <;> simp only [Except.error.injEq] at h <;>
          exact absurd h (by unfold EArithOverflow ENotAuthorized; omega)
  · intro st sid sty sig t sender h
    unfold add_tamper_seal
    rw [if_neg h]
  · intro st nc sig act loc notes w t sender h
    unfold transfer_custody
    rw [if_neg h]
  · intro st sigs t sender stg hget hresp
    have hlt : st.shipment.current_stage_index < st.shipment.stages.length :=
      (List.get?_eq_some.mp hget).1
    have hgetval : st.shipment.stages.get
        ⟨st.shipment.current_stage_index, hlt⟩ = stg := by
      have := List.get?_eq_get hlt
      rw [hget] at this
      exact (Option.some.injEq _ _ |>.mp this.symm)
    unfold complete_stage
    rw [dif_pos hlt, if_neg (by rw [hgetval]; exact hresp)]

/-- Witness for C2's amended theorem: all six parts applied at concrete
inputs (unregistered sender 99 succeeds at sensor ingestion; incident
reporting gives the identical result for senders 99 and 1 and no
Unauthorized failure; non-custodian 99 rejected at seal application and
custody transfer; non-responsible party 2 rejected at stage completion). -/
theorem C2_caller_validation_amended_witness :
    (add_sensor_reading stCreated "s1" "temperature" "20" "C" 90 0 30 99).isOk
      = true ∧
    report_security_incident stCreated "tamper" 3 "d" 30 99
      = report_security_incident stCreated "tamper" 3 "d" 30 1 ∧
    report_security_incident stCreated "tamper" 3 "d" 30 99
      ≠ .error ENotAuthorized ∧
    ((99 : Address) ≠ stCreated.shipment.current_custodian ∧
      add_tamper_seal stCreated "S1" "rfid" [1] 30 99 = .error ENotAuthorized) ∧
    ((99 : Address) ≠ stCreated.shipment.current_custodian ∧
      transfer_custody stCreated 2 [7] "handover" locD "ok" none 20 99
        = .error ENotAuthorized) ∧
    (stCreated.shipment.stages.get? stCreated.shipment.current_stage_index
        = some stageA ∧
      (2 : Address) ≠ stageA.responsible_party ∧
      complete_stage stCreated [[1]] 40 2 = .error ENotAuthorized) :=
  ⟨C2_caller_validation_amended.1 stCreated "s1" "temperature" "20" "C" 90 0 30 99,
   C2_caller_validation_amended.2.1 stCreated "tamper" 3 "d" 30 99 1,
   C2_caller_validation_amended.2.2.1 stCreated "tamper" 3 "d" 30 99,
   ⟨by decide, C2_caller_validation_amended.2.2.2.1 stCreated "S1" "rfid" [1]
      30 99 (by decide)⟩,
   ⟨by decide, C2_caller_validation_amended.2.2.2.2.1 stCreated 2 [7] "handover"
      locD "ok" none 20 99 (by decide)⟩,
   ⟨by decide, by decide, C2_caller_validation_amended.2.2.2.2.2 stCreated [[1]]
      40 2 stageA (by decide) (by decide)⟩⟩

/-- Claim C3, behavior of the code at the failing inputs: against a spec
with `max_temperature = 30` and `max_humidity = 50`, an in-range temperature
reading of 20 still appends a `ConditionViolation` (the code appends one
whenever a temperature bound is declared, never parsing the value), while an
out-of-range humidity reading of 99 appends none (no quantity other than
temperature is checked) — both contradicting the claimed iff. -/
theorem C3_code_behavior :
    (stCreatedBounds.shipment.environmental_requirements.max_temperature
        = some 30 ∧
      stCreatedBounds.shipment.environmental_requirements.max_humidity
        = some 50 ∧
      stCreatedBounds.shipment.condition_violations = []) ∧
    (∃ st', add_sensor_reading stCreatedBounds "s1" "temperature" "20" "C"
          90 0 30 1 = .ok st' ∧
      st'.shipment.sensor_readings.length
        = stCreatedBounds.shipment.sensor_readings.length + 1 ∧
      st'.shipment.condition_violations.length = 1) ∧
    (∃ st', add_sensor_reading stCreatedBounds "h1" "humidity" "99" "pct"
          90 0 30 1 = .ok st' ∧
      st'.shipment.sensor_readings.length
        = stCreatedBounds.shipment.sensor_readings.length + 1 ∧
      st'.shipment.condition_violations = []) := by
  refine ⟨⟨by decide, by decide, by decide⟩,
    ⟨expectState (add_sensor_reading stCreatedBounds "s1" "temperature" "20" "C"
        90 0 30 1), rfl, by decide, by decide⟩,
    ⟨expectState (add_sensor_reading stCreatedBounds "h1" "humidity" "99" "pct"
        90 0 30 1), rfl, by decide, by decide⟩⟩

/-- Counterexample to claim C7: the admin registers participant 7 as a
manufacturer, then re-registers the same identity under the same role; the
second call aborts with `EFieldAlreadyExists` instead of succeeding and
overwriting. -/
theorem C7_counterexample :
    (register_participant tracker0 7 "N" [] "manufacturer" [] []
        tracker0.admin).isOk = true ∧
    register_participant
        (expectTracker (register_participant tracker0 7 "N" [] "manufacturer"
          [] [] tracker0.admin))
        7 "N2" [2] "manufacturer" [] [] tracker0.admin
      = .error EFieldAlreadyExists := by
  exact ⟨by decide, by rfl⟩

/-- Claim C7 (amended): `register_participant` is admin-only (it fails with
`Unauthorized` for every non-admin caller); registering a fresh identity
under a recognized role prepends it to that role's table, but re-registering
an identity already present under the same role aborts with
`EFieldAlreadyExists` rather than overwriting the record. -/
theorem C7_register_participant_amended :
    ∀ (tracker : Tracker) (p : Address) (nm : String) (pk : List Nat)
      (role : String) (certs regions : List String) (sender : Address),
      (sender ≠ tracker.admin →
        register_participant tracker p nm pk role certs regions sender
          = .error ENotAuthorized) ∧
      (role = "manufacturer" ∨ role = "distributor" ∨ role = "retailer" ∨
          role = "customs" ∨ role = "auditor" →
        (((role_table tracker role).lookup p).isSome →
          register_participant tracker p nm pk role certs regions tracker.admin
            = .error EFieldAlreadyExists) ∧
        ((role_table tracker role).lookup p = none →
          ∃ tr', register_participant tracker p nm pk role certs regions
              tracker.admin = .ok tr' ∧
            tr'.admin = tracker.admin ∧
            role_table tr' role = (p,
              { name := nm, public_key := pk, certifications := certs,
                authorized_regions := regions, risk_rating := 0,
                last_audit_timestamp := 0, active := true }) ::
              role_table tracker role)) := by
  intro tracker p nm pk role certs regions sender
  constructor
  · intro h
    unfold register_participant
    rw [if_neg h]
  · intro hrole
    constructor
    · intro hdup
      rcases hrole with h | h | h | h | h <;> subst h <;>
        simp [role_table] at hdup <;>
        simp [register_participant, Table.addEntry, Except.map, hdup]
    · intro hfresh
      rcases hrole with h | h | h | h | h <;> subst h
      · simp only [role_table, String.reduceEq, reduceIte] at hfresh
        refine ⟨{ tracker with manufacturers := (p,
            { name := nm, public_key := pk, certifications := certs,
              authorized_regions := regions, risk_rating := 0,
              last_audit_timestamp := 0, active := true }) :: tracker.manufacturers },
          by simp [register_participant, Table.addEntry, Except.map, hfresh], rfl,
          by simp [role_table]⟩
      · simp only [role_table, String.reduceEq, reduceIte] at hfresh
        refine ⟨{ tracker with distributors := (p,
            { name := nm, public_key := pk, certifications := certs,
              authorized_regions := regions, risk_rating := 0,
              last_audit_timestamp := 0, active := true }) :: tracker.distributors },
          by simp [register_participant, Table.addEntry, Except.map, hfresh], rfl,
          by simp [role_table]⟩
      · simp only [role_table, String.reduceEq, reduceIte] at hfresh
        refine ⟨{ tracker with retailers := (p,
            { name := nm, public_key := pk, certifications := certs,
              authorized_regions := regions, risk_rating := 0,
              last_audit_timestamp := 0, active := true }) :: tracker.retailers },
          by simp [register_participant, Table.addEntry, Except.map, hfresh], rfl,
          by simp [role_table]⟩
      · simp only [role_table, String.reduceEq, reduceIte] at hfresh
        refine ⟨{ tracker with customs_authorities := (p,
            { name := nm, public_key := pk, certifications := certs,
              authorized_regions := regions, risk_rating := 0,
              last_audit_timestamp := 0, active := true }) :: tracker.customs_authorities },
          by simp [register_participant, Table.addEntry, Except.map, hfresh], rfl,
          by simp [role_table]⟩
      · simp only [role_table, String.reduceEq, reduceIte] at hfresh
        refine ⟨{ tracker with auditors := (p,
            { name := nm, public_key := pk, certifications := certs,
              authorized_regions := regions, risk_rating := 0,
              last_audit_timestamp := 0, active := true }) :: tracker.auditors },
          by simp [register_participant, Table.addEntry, Except.map, hfresh], rfl,
          by simp [role_table]⟩

/-- Witness for C7's amended theorem: the three behaviors at `tracker0`
(non-admin caller 5 rejected; fresh manufacturer 7 registered; duplicate
manufacturer 1 aborted). -/
theorem C7_register_participant_amended_witness :
    ((5 : Address) ≠ tracker0.admin ∧
      register_participant tracker0 7 "N" [] "manufacturer" [] [] 5
        = .error ENotAuthorized) ∧
    (((role_table tracker0 "manufacturer").lookup 1).isSome ∧
      register_participant tracker0 1 "N" [] "manufacturer" [] [] tracker0.admin
        = .error EFieldAlreadyExists) ∧
    ((role_table tracker0 "manufacturer").lookup 7 = none ∧
      ∃ tr', register_participant tracker0 7 "N" [] "manufacturer" [] []
          tracker0.admin = .ok tr' ∧
        tr'.admin = tracker0.admin ∧
        role_table tr' "manufacturer" = (7,
          { name := "N", public_key := [], certifications := [],
            authorized_regions := [], risk_rating := 0,
            last_audit_timestamp := 0, active := true }) ::
          role_table tracker0 "manufacturer") :=
  ⟨⟨by decide, (C7_register_participant_amended tracker0 7 "N" [] "manufacturer"
      [] [] 5).1 (by decide)⟩,
   ⟨by decide, ((C7_register_participant_amended tracker0 1 "N" [] "manufacturer"
      [] [] tracker0.admin).2 (Or.inl rfl)).1 (by decide)⟩,
   ⟨by decide, ((C7_register_participant_amended tracker0 7 "N" [] "manufacturer"
      [] [] tracker0.admin).2 (Or.inl rfl)).2 (by decide)⟩⟩

/-- Counterexample to claim C8: distributor 2 is registered but inactive
(`active = false`), yet `transfer_custody` from the current custodian 1 to 2
succeeds instead of failing with `Unauthorized`. -/
theorem C8_counterexample :
    (stCreatedInactive.tracker.distributors.lookup 2).map ParticipantInfo.active
      = some false ∧
    (1 : Address) = stCreatedInactive.shipment.current_custodian ∧
    (transfer_custody stCreatedInactive 2 [7] "handover" locD "ok" none 20 1).isOk
      = true := by
  refine ⟨by decide, by decide, by decide⟩

/-- Claim C8 (amended): `transfer_custody` fails with `Unauthorized` exactly
when the caller is not the current custodian or `new_custodian` is in none
of the four role tables {manufacturers, distributors, retailers, customs};
the `active` flag is never consulted, so a registered-but-inactive new
custodian is accepted; and on any failure the whole state — in particular
the custody chain, `current_custodian`, and `current_location` — is
unchanged. -/
theorem C8_transfer_custody_amended :
    ∀ (st : SysState) (nc : Address) (sig : List Nat) (act : String)
      (loc : Location) (notes : String) (w : Option Address) (t : Nat)
      (sender : Address),
      (transfer_custody st nc sig act loc notes w t sender
          = .error ENotAuthorized ↔
        (sender ≠ st.shipment.current_custodian ∨
          (Table.containsKey st.tracker.manufacturers nc = false ∧
            Table.containsKey st.tracker.distributors nc = false ∧
            Table.containsKey st.tracker.retailers nc = false ∧
            Table.containsKey st.tracker.customs_authorities nc = false))) ∧
      ((transfer_custody st nc sig act loc notes w t sender).isOk = false →
        applyOpTx (.transferCustody nc sig act loc notes w) sender t st = st) := by
  intro st nc sig act loc notes w t sender
  constructor
  · constructor
    · intro h
      unfold transfer_custody at h
      split_ifs at h with h1 h2
      · right
        simp only [Bool.or_eq_true, not_or, Bool.not_eq_true] at h2
        exact ⟨h2.1.1.1, h2.1.1.2, h2.1.2, h2.2⟩
      · exact Or.inl h1
    · intro hcond
      unfold transfer_custody
      rcases hcond with h1 | h4
      · rw [if_neg h1]
      · by_cases h1 : sender = st.shipment.current_custodian
        · rw [if_pos h1,
            if_neg (by simp [h4.1, h4.2.1, h4.2.2.1, h4.2.2.2])]
        · rw [if_neg h1]
  · intro hfail
    rcases applyOpTx_cases (.transferCustody nc sig act loc notes w) sender t st
      with htx | ⟨st2, hok, htx⟩
    · exact htx
    · simp only [applyOp] at hok
      rw [hok] at hfail
      exact absurd hfail (by simp [Except.isOk, Except.toBool])

/-- Witness for C8's amended theorem: transfer to the unregistered address
42 fails with `Unauthorized` (via the iff) and leaves the state unchanged
(via the frame part with its hypothesis discharged). -/
theorem C8_transfer_custody_amended_witness :
    transfer_custody stCreated 42 [7] "handover" locD "ok" none 20 1
      = .error ENotAuthorized ∧
    applyOpTx (.transferCustody 42 [7] "handover" locD "ok" none) 1 20 stCreated
      = stCreated :=
  ⟨(C8_transfer_custody_amended stCreated 42 [7] "handover" locD "ok" none
      20 1).1.mpr (Or.inr ⟨by decide, by decide, by decide, by decide⟩),
   (C8_transfer_custody_amended stCreated 42 [7] "handover" locD "ok" none
      20 1).2 (by decide)⟩

end SupplyChainTracker
